import Mathlib

/-!
Verification of the monitoring-session synchronization and spatial-calibration
subsystem of the road_sight dashboard.

The relevant source is translated into executable Lean definitions:

* `getImageBounds`, `natToDisplay`, `displayToNat` — the contain-scaling
  coordinate transform of `SpaceEditor.tsx` (duplicated verbatim in the bus
  `SeatEditor`); JavaScript numbers are embedded as rationals, so the
  floating-point "within tolerance" claims become exact equalities.
* `handleCanvasClick`, `undoPoint`, `cancelDrawing`, `saveSpace` — the
  polygon-calibration editor operations of `SpaceEditor.tsx`, with network
  calls reified as an explicit call list.
* `handleSwap`, `leftNormalDir` — the counting-line editor of the bus
  passenger view (`LineEditor`).
* `pollIntervalMs`, the `UiEvent` traces, and `onWsMessage` — the monitor
  views (`SpaceMonitorView`, `ParkingMonitor`, `PassengerMonitorView`,
  `LiveMonitor`): adaptive polling cadence, start/stop handlers, and the
  WebSocket detection buffer.
-/

namespace RoadSight

/-- Relevant fields of an HTML image element as read by the calibration
editors: CSS client size and intrinsic (natural) size. -/
structure ImgEl where
  clientWidth : ℚ
  clientHeight : ℚ
  naturalWidth : ℚ
  naturalHeight : ℚ
  deriving DecidableEq, Repr

/-- Rendered-image bounds under contain scaling, as returned by
`getImageBounds`: rendered width/height and x/y letterbox offset. -/
structure Bounds where
  rw : ℚ
  rh : ℚ
  ox : ℚ
  oy : ℚ
  deriving DecidableEq, Repr

/-- Embedding of `getImageBounds` (SpaceEditor.tsx lines 18–42, identical in
the bus seat editor).  The JavaScript `naturalWidth || cw` fallback reads the
client dimension when the natural dimension is `0`. -/
def getImageBounds (img : ImgEl) : Bounds :=
  let cw := img.clientWidth
  let ch := img.clientHeight
  let nw := if img.naturalWidth = 0 then cw else img.naturalWidth
  let nh := if img.naturalHeight = 0 then ch else img.naturalHeight
  let containerAspect := cw / ch
  let imageAspect := nw / nh
  if containerAspect < imageAspect then
    { rw := cw, rh := cw / imageAspect, ox := 0, oy := (ch - cw / imageAspect) / 2 }
  else
    { rw := ch * imageAspect, rh := ch, ox := (cw - ch * imageAspect) / 2, oy := 0 }

/-- Embedding of `natToDisplay` (SpaceEditor.tsx lines 45–51): forward
transform from natural-image pixel coordinates to display coordinates.
Note the divisors are the raw `naturalWidth`/`naturalHeight` fields. -/
def natToDisplay (x y : ℚ) (img : ImgEl) : ℚ × ℚ :=
  let b := getImageBounds img
  ((x / img.naturalWidth) * b.rw + b.ox, (y / img.naturalHeight) * b.rh + b.oy)

/-- Inverse transform used by `handleCanvasClick` (SpaceEditor.tsx lines
174–176): display coordinates to natural-image pixel coordinates. -/
def displayToNat (dx dy : ℚ) (img : ImgEl) : ℚ × ℚ :=
  let b := getImageBounds img
  (((dx - b.ox) / b.rw) * img.naturalWidth, ((dy - b.oy) / b.rh) * img.naturalHeight)

/-- Rendered width is positive for positive client and natural sizes. -/
lemma getImageBounds_rw_pos (img : ImgEl) (hcw : 0 < img.clientWidth)
    (hch : 0 < img.clientHeight) (hnw : 0 < img.naturalWidth)
    (hnh : 0 < img.naturalHeight) : 0 < (getImageBounds img).rw := by
  unfold getImageBounds
  simp only [hnw.ne', hnh.ne', if_false]
  split
  · exact hcw
  · exact mul_pos hch (div_pos hnw hnh)

/-- Rendered height is positive for positive client and natural sizes. -/
lemma getImageBounds_rh_pos (img : ImgEl) (hcw : 0 < img.clientWidth)
    (hch : 0 < img.clientHeight) (hnw : 0 < img.naturalWidth)
    (hnh : 0 < img.naturalHeight) : 0 < (getImageBounds img).rh := by
  unfold getImageBounds
  simp only [hnw.ne', hnh.ne', if_false]
  split
  · exact div_pos hcw (div_pos hnw hnh)
  · exact hch

/-! ## Zone calibration editor (SpaceEditor.tsx, SeatEditor) -/

/-- Local state of the polygon editor: the in-progress vertex list
(`drawing`) and the label input (`label`). -/
structure EditorState where
  drawing : List (ℚ × ℚ)
  label : String
  deriving DecidableEq, Repr

/-- Embedding of `handleCanvasClick` (SpaceEditor.tsx lines 164–182): the
click position is converted to natural coordinates through the inverse
transform; clicks landing in the letterbox bars (a coordinate strictly
outside `[0,naturalWidth] x [0,naturalHeight]`) are ignored, anything else is
appended to the in-progress list. -/
def handleCanvasClick (img : ImgEl) (displayX displayY : ℚ)
    (st : EditorState) : EditorState :=
  let p := displayToNat displayX displayY img
  if p.1 < 0 ∨ p.2 < 0 ∨ p.1 > img.naturalWidth ∨ p.2 > img.naturalHeight then st
  else { st with drawing := st.drawing ++ [p] }

/-- Embedding of `undoPoint` (SpaceEditor.tsx line 185): drop the last
vertex. -/
def undoPoint (st : EditorState) : EditorState :=
  { st with drawing := st.drawing.dropLast }

/-- Embedding of `cancelDrawing` (SpaceEditor.tsx line 184): clear the
in-progress list and the label. -/
def cancelDrawing (_st : EditorState) : EditorState :=
  { drawing := [], label := "" }

/-- Network calls the editor can issue. -/
inductive ApiCall where
  | createSpace (label : String) (polygon : List (ℚ × ℚ))
  | getSpaces
  deriving DecidableEq, Repr

/-- Outcome of a save attempt. -/
inductive SaveResult where
  | validationError (msg : String)
  | saved
  | requestFailed
  deriving DecidableEq, Repr

/-- Embedding of the JavaScript `String.prototype.trim` used by the editor:
strip leading and trailing whitespace. -/
def jsTrim (s : String) : String :=
  ⟨((s.data.dropWhile Char.isWhitespace).reverse.dropWhile
      Char.isWhitespace).reverse⟩

/-- Embedding of `saveSpace` (SpaceEditor.tsx lines 187–201; `saveSeat` is
identical).  Returns the new editor state, the list of network calls issued,
and the outcome.  `createOk` is whether the external create call succeeds;
on success the draft and label are cleared and the authoritative list is
re-fetched (`loadSpaces`), on a rejected create the draft is kept. -/
def saveSpace (createOk : Bool) (st : EditorState) :
    EditorState × List ApiCall × SaveResult :=
  if st.drawing.length < 3 then
    (st, [], .validationError "Minimal 3 titik untuk membentuk polygon")
  else if jsTrim st.label = "" then
    (st, [], .validationError "Label slot wajib diisi (contoh: A1)")
  else if createOk then
    ({ drawing := [], label := "" },
      [.createSpace (jsTrim st.label) st.drawing, .getSpaces], .saved)
  else
    (st, [.createSpace (jsTrim st.label) st.drawing], .requestFailed)

/-- Every vertex of the in-progress list lies in the closed native-frame
rectangle. -/
def InFrame (img : ImgEl) (st : EditorState) : Prop :=
  ∀ p ∈ st.drawing,
    0 ≤ p.1 ∧ p.1 ≤ img.naturalWidth ∧ 0 ≤ p.2 ∧ p.2 ≤ img.naturalHeight

/-! ## Counting-line editor (LineEditor in the bus passenger view) -/

/-- Two endpoints of the counting line, normalized to `[0,1]` of the frame
(the `LinePts` record of the api service). -/
structure LinePts where
  x1 : ℚ
  y1 : ℚ
  x2 : ℚ
  y2 : ℚ
  deriving DecidableEq, Repr

/-- Embedding of `handleSwap` (LineEditor): exchange the two endpoints. -/
def handleSwap (p : LinePts) : LinePts :=
  { x1 := p.x2, y1 := p.y2, x2 := p.x1, y2 := p.y1 }

/-- Line vector `p2 − p1`, as computed in the LineEditor draw routine
(`dx = px2 - px1`, `dy = py2 - py1`). -/
def lineVec (p : LinePts) : ℚ × ℚ :=
  (p.x2 - p.x1, p.y2 - p.y1)

/-- Unnormalized left-normal direction `(dy, −dx)` of the line vector; the
draw routine scales it by `1/len` and uses it as the NAIK ("in") arrow
direction. -/
def leftNormalDir (p : LinePts) : ℚ × ℚ :=
  ((lineVec p).2, -(lineVec p).1)

/-! ## Monitor sessions: status cache, polling cadence, handlers -/

/-- Cached status snapshot of a monitor session.  The backend payload has
further count fields; `last_update` stands for that untouched remainder,
which the handlers copy through `{ ...prev }` spreads. -/
structure StatusSnapshot where
  status : String
  last_update : String
  deriving DecidableEq, Repr

/-- The running classification of the views: `status?.status === "running"
|| status?.status === "starting"`, with a `none` cache reading as not
running. -/
def isRunningStatus (cached : Option StatusSnapshot) : Bool :=
  match cached with
  | some s => s.status == "running" || s.status == "starting"
  | none => false

/-- Poll interval chosen by the status effect of every monitor view:
`setInterval(check, isRunning ? 2000 : 5000)`. -/
def pollIntervalMs (cached : Option StatusSnapshot) : ℕ :=
  if isRunningStatus cached then 2000 else 5000

/-- Atomic UI-visible effects a start/stop handler performs, in program
order. -/
inductive UiEvent where
  | apiStartCmd
  | apiStopCmd
  | apiFetchStatus
  | setStatus (v : Option StatusSnapshot)
  | clearDetections
  deriving DecidableEq, Repr

/-- Effect of one UI event on the cached status. -/
def applyEvent (c : Option StatusSnapshot) : UiEvent → Option StatusSnapshot
  | .setStatus v => v
  | _ => c

/-- Run a handler trace over the cached status. -/
def runEvents (c : Option StatusSnapshot) (es : List UiEvent) :
    Option StatusSnapshot :=
  es.foldl applyEvent c

/-- Status string visible through the cache. -/
def cachedStatus (c : Option StatusSnapshot) : Option String :=
  c.map (fun s => s.status)

/-- Trace of `handleStart` in SpaceMonitorView (lines 46–57) on the success
path: await the start command, await a status fetch, store its result.  No
state is written before the fetch resolves. -/
def spaceHandleStartEvents (fetched : StatusSnapshot) : List UiEvent :=
  [.apiStartCmd, .apiFetchStatus, .setStatus (some fetched)]

/-- Trace of `handleStart` in the traffic-camera LiveMonitor on the success
path; structurally identical to the parking/bus views. -/
def liveHandleStartEvents (fetched : StatusSnapshot) : List UiEvent :=
  [.apiStartCmd, .apiFetchStatus, .setStatus (some fetched)]

/-- The `setStatus((prev) => prev ? { ...prev, status: "stopped" } : null)`
update of `handleStop` in SpaceMonitorView (lines 59–68). -/
def stoppedUpdate (prev : Option StatusSnapshot) : Option StatusSnapshot :=
  prev.map (fun s => { s with status := "stopped" })

/-- Trace of `handleStop` in SpaceMonitorView on the success path: await the
stop command, then synchronously overwrite the cached status. -/
def spaceHandleStopEvents (prev : Option StatusSnapshot) : List UiEvent :=
  [.apiStopCmd, .setStatus (stoppedUpdate prev)]

/-- Trace of `handleStop` in ParkingMonitor (lines 69–76), textually the
same update as the parking-space view. -/
def parkingHandleStopEvents (prev : Option StatusSnapshot) : List UiEvent :=
  [.apiStopCmd, .setStatus (stoppedUpdate prev)]

/-- Trace of `handleStop` in PassengerMonitorView (lines 80–89), textually
the same update as the parking-space view. -/
def busHandleStopEvents (prev : Option StatusSnapshot) : List UiEvent :=
  [.apiStopCmd, .setStatus (stoppedUpdate prev)]

/-- Trace of `handleStop` in the bus-seat SeatMonitorView (lines 58–67),
textually the same update as the parking-space view. -/
def seatHandleStopEvents (prev : Option StatusSnapshot) : List UiEvent :=
  [.apiStopCmd, .setStatus (stoppedUpdate prev)]

/-- Trace of `handleStop` in the traffic-camera LiveMonitor on the success
path: await the stop command, clear the recent-detection list, then
`setStatus(null)` — the cache is cleared, not marked `"stopped"`. -/
def liveHandleStopEvents : List UiEvent :=
  [.apiStopCmd, .clearDetections, .setStatus none]

/-- Whether a trace writes a `"starting"` status before its first status
fetch — the observable content of an optimistic `starting` update. -/
def setsStartingBeforeFetch (es : List UiEvent) : Bool :=
  (es.takeWhile (fun e => !(e == UiEvent.apiFetchStatus))).any
    (fun e =>
      match e with
      | .setStatus v => cachedStatus v == some "starting"
      | _ => false)

/-! ## WebSocket detection buffer (LiveMonitor `ws.onmessage`) -/

/-- Fields of a `WsDetection` event that the buffering logic inspects; the
remaining payload (per-vehicle detections, totals, line counts) is carried
opaquely by `timestamp`-style data and never examined by `onmessage`. -/
structure WsDetection where
  type : String
  camera_id : ℤ
  timestamp : String
  deriving DecidableEq, Repr

/-- Consumer filter of the LiveMonitor handler: `data.camera_id === cameraId
&& data.type === "live_detection"`. -/
def wsMatch (cameraId : ℤ) (d : WsDetection) : Bool :=
  d.camera_id == cameraId && d.type == "live_detection"

/-- Embedding of the LiveMonitor `ws.onmessage` handler: a malformed payload
(`none`, the JSON.parse failure caught and ignored) leaves the buffer
unchanged; a parsed event is prepended and the buffer truncated to 10
entries only when both the entity id and the type discriminator match. -/
def onWsMessage (cameraId : ℤ) (buf : List WsDetection)
    (msg : Option WsDetection) : List WsDetection :=
  match msg with
  | none => buf
  | some d => if wsMatch cameraId d then (d :: buf).take 10 else buf

/-- Buffer retained after a sequence of raw messages, starting from the
initial empty `recentDetections`. -/
def runWsMessages (cameraId : ℤ) (msgs : List (Option WsDetection)) :
    List WsDetection :=
  msgs.foldl (onWsMessage cameraId) []

/-! ## Theorems -/

/-- Claim C1: for every positive container size and native frame size, and
every display point strictly inside the rendered (non-letterbox) rectangle,
applying the inverse transform of the canvas click handler and then the
forward transform `natToDisplay` returns the original display point.  Over
the rational embedding the round trip is exact, hence within any
floating-point tolerance. -/
theorem natToDisplay_displayToNat_roundTrip (img : ImgEl) (dx dy : ℚ)
    (hcw : 0 < img.clientWidth) (hch : 0 < img.clientHeight)
    (hnw : 0 < img.naturalWidth) (hnh : 0 < img.naturalHeight)
    (hx1 : (getImageBounds img).ox < dx)
    (hx2 : dx < (getImageBounds img).ox + (getImageBounds img).rw)
    (hy1 : (getImageBounds img).oy < dy)
    (hy2 : dy < (getImageBounds img).oy + (getImageBounds img).rh) :
    natToDisplay (displayToNat dx dy img).1 (displayToNat dx dy img).2 img
      = (dx, dy) := by
  have hrw : (getImageBounds img).rw ≠ 0 :=
    (getImageBounds_rw_pos img hcw hch hnw hnh).ne'
  have hrh : (getImageBounds img).rh ≠ 0 :=
    (getImageBounds_rh_pos img hcw hch hnw hnh).ne'
  simp only [natToDisplay, displayToNat, Prod.mk.injEq]
  constructor
  · field_simp
    ring
  · field_simp
    ring

/-- Witness for C1 at the letterboxed 800x800 container with a 1920x1080
frame and display point (400, 200). -/
theorem natToDisplay_displayToNat_roundTrip_witness :
    natToDisplay (displayToNat 400 200 ⟨800, 800, 1920, 1080⟩).1
        (displayToNat 400 200 ⟨800, 800, 1920, 1080⟩).2 ⟨800, 800, 1920, 1080⟩
      = (400, 200) :=
  natToDisplay_displayToNat_roundTrip ⟨800, 800, 1920, 1080⟩ 400 200
    (by norm_num) (by norm_num) (by norm_num) (by norm_num)
    (by norm_num [getImageBounds]) (by norm_num [getImageBounds])
    (by norm_num [getImageBounds]) (by norm_num [getImageBounds])

/-- Claim C2: contain-scaling geometry of `getImageBounds` — when the image
is wider than the container the rendered width is the container width with
vertical letterbox bars, otherwise the rendered height is the container
height with horizontal bars; in particular container 800x800 with native
1920x1080 gives rendered 800x450 at offset (0, 175); and the forward
transform maps a native point by `dx = nx/nw * renderedW + offsetX`,
symmetric in y. -/
theorem getImageBounds_contain_spec (img : ImgEl)
    (hcw : 0 < img.clientWidth) (hch : 0 < img.clientHeight)
    (hnw : 0 < img.naturalWidth) (hnh : 0 < img.naturalHeight) :
    (img.clientWidth / img.clientHeight
        < img.naturalWidth / img.naturalHeight →
      getImageBounds img =
        { rw := img.clientWidth,
          rh := img.clientWidth * img.naturalHeight / img.naturalWidth,
          ox := 0,
          oy := (img.clientHeight
            - img.clientWidth * img.naturalHeight / img.naturalWidth) / 2 })
    ∧ (¬ img.clientWidth / img.clientHeight
          < img.naturalWidth / img.naturalHeight →
      getImageBounds img =
        { rw := img.clientHeight * img.naturalWidth / img.naturalHeight,
          rh := img.clientHeight,
          ox := (img.clientWidth
            - img.clientHeight * img.naturalWidth / img.naturalHeight) / 2,
          oy := 0 })
    ∧ getImageBounds ⟨800, 800, 1920, 1080⟩ = ⟨800, 450, 0, 175⟩
    ∧ (∀ nx ny : ℚ,
        natToDisplay nx ny img =
          (nx / img.naturalWidth * (getImageBounds img).rw
              + (getImageBounds img).ox,
           ny / img.naturalHeight * (getImageBounds img).rh
              + (getImageBounds img).oy)) := by
  have hq : img.clientWidth / (img.naturalWidth / img.naturalHeight)
      = img.clientWidth * img.naturalHeight / img.naturalWidth :=
    div_div_eq_mul_div img.clientWidth img.naturalWidth img.naturalHeight
  have hq2 : img.clientHeight * (img.naturalWidth / img.naturalHeight)
      = img.clientHeight * img.naturalWidth / img.naturalHeight := by
    rw [mul_div_assoc]
  refine ⟨?_, ?_, by norm_num [getImageBounds, Bounds.mk.injEq], ?_⟩
  · intro h
    unfold getImageBounds
    simp only [hnw.ne', hnh.ne', if_false, if_pos h, hq]
  · intro h
    unfold getImageBounds
    simp only [hnw.ne', hnh.ne', if_false, if_neg h, hq2]
  · intro nx ny
    rfl

/-- Witness for C2 at the 800x800 container with a 1920x1080 frame. -/
theorem getImageBounds_contain_spec_witness :
    getImageBounds ⟨800, 800, 1920, 1080⟩ = ⟨800, 450, 0, 175⟩ :=
  (getImageBounds_contain_spec ⟨800, 800, 1920, 1080⟩
    (by norm_num) (by norm_num) (by norm_num) (by norm_num)).2.2.1

/-- Claim C8: `handleSwap` exchanges the two endpoints, the left-normal
direction `(dy, −dx)` of the line vector flips sign (so the geometric side
reported as "in" versus "out" is inverted), and applying the swap twice
returns the original line. -/
theorem handleSwap_involution (p : LinePts) :
    handleSwap (handleSwap p) = p
    ∧ handleSwap p = { x1 := p.x2, y1 := p.y2, x2 := p.x1, y2 := p.y1 }
    ∧ leftNormalDir (handleSwap p)
        = (-(leftNormalDir p).1, -(leftNormalDir p).2) := by
  refine ⟨rfl, rfl, ?_⟩
  simp only [leftNormalDir, lineVec, handleSwap, Prod.mk.injEq]
  constructor
  · ring
  · ring

/-- Claim C10 counterexample: with `naturalWidth = 0` but `naturalHeight =
500` in a non-degenerate 800x400 container, `getImageBounds` substitutes the
client width only for the missing dimension and returns a 640x400 rectangle
at offset (80, 0) — not the full container rectangle the claim asserts for
every zero natural dimension. -/
theorem getImageBounds_single_zero_counterexample :
    getImageBounds ⟨800, 400, 0, 500⟩ = ⟨640, 400, 80, 0⟩
    ∧ getImageBounds ⟨800, 400, 0, 500⟩ ≠ ⟨800, 400, 0, 0⟩ := by
  constructor
  · norm_num [getImageBounds, Bounds.mk.injEq]
  · norm_num [getImageBounds, Bounds.mk.injEq]

/-- Claim C10 (amended): when both natural dimensions are `0` (frame not yet
loaded), `getImageBounds` substitutes the client dimensions for both, the
two aspect ratios coincide, and the function returns the full container
rectangle for any non-degenerate container. -/
theorem getImageBounds_unloaded_full (img : ImgEl)
    (_hcw : 0 < img.clientWidth) (hch : 0 < img.clientHeight)
    (hw : img.naturalWidth = 0) (hh : img.naturalHeight = 0) :
    getImageBounds img =
      { rw := img.clientWidth, rh := img.clientHeight, ox := 0, oy := 0 } := by
  unfold getImageBounds
  simp only [hw, hh, if_pos rfl, lt_self_iff_false, if_false]
  have hcc : img.clientHeight * (img.clientWidth / img.clientHeight)
      = img.clientWidth := by
    field_simp
  simp [hcc]

/-- Witness for the amended C10 at a 640x480 container with an unloaded
frame. -/
theorem getImageBounds_unloaded_full_witness :
    getImageBounds ⟨640, 480, 0, 0⟩ = ⟨640, 480, 0, 0⟩ :=
  getImageBounds_unloaded_full ⟨640, 480, 0, 0⟩
    (by norm_num) (by norm_num) rfl rfl

/-- Claim C5: the scheduled polling interval is exactly 2000 ms precisely
when the last known status is `running` or `starting`, and exactly 5000 ms
otherwise — including a `null` cache and any other status string — and after
a `running` snapshot is overwritten with `stopped` the next scheduled
interval is 5000 ms. -/
theorem pollInterval_cadence (cached : Option StatusSnapshot)
    (s : StatusSnapshot) :
    (pollIntervalMs cached = 2000 ↔
      cachedStatus cached = some "running"
        ∨ cachedStatus cached = some "starting")
    ∧ (cachedStatus cached ≠ some "running" →
        cachedStatus cached ≠ some "starting" →
        pollIntervalMs cached = 5000)
    ∧ pollIntervalMs none = 5000
    ∧ pollIntervalMs (some { s with status := "stopped" }) = 5000 := by
  refine ⟨?_, ?_, rfl, ?_⟩
  · cases cached with
    | none => simp [pollIntervalMs, isRunningStatus, cachedStatus]
    | some t =>
      by_cases h1 : t.status = "running" <;> by_cases h2 : t.status = "starting" <;>
        simp [pollIntervalMs, isRunningStatus, cachedStatus, h1, h2]
  · intro h1 h2
    cases cached with
    | none => rfl
    | some t =>
      have n1 : t.status ≠ "running" := by
        intro hq; exact h1 (by simp [cachedStatus, hq])
      have n2 : t.status ≠ "starting" := by
        intro hq; exact h2 (by simp [cachedStatus, hq])
      simp [pollIntervalMs, isRunningStatus, n1, n2]
  · simp [pollIntervalMs, isRunningStatus]

/-- Witness for C5: a `running` cache polls at 2000 ms; after the optimistic
stop overwrite the cadence drops to 5000 ms; an empty cache polls at
5000 ms. -/
theorem pollInterval_cadence_witness :
    pollIntervalMs (some ⟨"running", "t0"⟩) = 2000
    ∧ pollIntervalMs (some { (⟨"running", "t0"⟩ : StatusSnapshot) with
        status := "stopped" }) = 5000
    ∧ pollIntervalMs none = 5000 :=
  ⟨((pollInterval_cadence (some ⟨"running", "t0"⟩) ⟨"running", "t0"⟩).1).mpr
      (Or.inl rfl),
    (pollInterval_cadence (some ⟨"running", "t0"⟩) ⟨"running", "t0"⟩).2.2.2,
    (pollInterval_cadence none ⟨"running", "t0"⟩).2.2.1⟩

/-- Claim C4: with fewer than 3 draft vertices, or with an empty trimmed
label, `saveSpace` returns a validation error and issues zero network calls,
leaving the draft and label unchanged; when both preconditions hold and the
create call succeeds, it persists the trimmed label with the draft vertices
via the create call, re-fetches the list, and clears the draft and the
label. -/
theorem saveSpace_validation_atomic (createOk : Bool) (st : EditorState) :
    (st.drawing.length < 3 →
      saveSpace createOk st =
        (st, [], .validationError "Minimal 3 titik untuk membentuk polygon"))
    ∧ (jsTrim st.label = "" →
        (saveSpace createOk st).1 = st ∧ (saveSpace createOk st).2.1 = []
          ∧ ∃ m, (saveSpace createOk st).2.2 = .validationError m)
    ∧ (3 ≤ st.drawing.length → jsTrim st.label ≠ "" → createOk = true →
        saveSpace createOk st =
          ({ drawing := [], label := "" },
            [.createSpace (jsTrim st.label) st.drawing, .getSpaces],
            .saved)) := by
  refine ⟨?_, ?_, ?_⟩
  · intro h
    simp [saveSpace, h]
  · intro h
    by_cases h3 : st.drawing.length < 3
    · exact ⟨by simp [saveSpace, h3], by simp [saveSpace, h3],
        "Minimal 3 titik untuk membentuk polygon", by simp [saveSpace, h3]⟩
    · exact ⟨by simp [saveSpace, h3, h], by simp [saveSpace, h3, h],
        "Label slot wajib diisi (contoh: A1)", by simp [saveSpace, h3, h]⟩
  · intro h3 hl hc
    subst hc
    have h4 : ¬ st.drawing.length < 3 := Nat.not_lt.mpr h3
    simp [saveSpace, h4, hl]

/-- Witness for C4: a 2-vertex draft is rejected with no calls, a 3-vertex
draft with a non-empty label is persisted and cleared. -/
theorem saveSpace_validation_atomic_witness :
    saveSpace true ⟨[(0, 0), (1, 1)], "A1"⟩
      = (⟨[(0, 0), (1, 1)], "A1"⟩, [],
          .validationError "Minimal 3 titik untuk membentuk polygon")
    ∧ saveSpace true ⟨[(0, 0), (4, 0), (4, 4)], "A1"⟩
      = (⟨[], ""⟩,
          [.createSpace (jsTrim "A1") [(0, 0), (4, 0), (4, 4)], .getSpaces],
          .saved) :=
  ⟨(saveSpace_validation_atomic true ⟨[(0, 0), (1, 1)], "A1"⟩).1 (by norm_num),
    (saveSpace_validation_atomic true ⟨[(0, 0), (4, 0), (4, 4)], "A1"⟩).2.2
      (by norm_num) (by decide) rfl⟩

/-- Claim C9: every editor operation preserves the invariant that all draft
vertices lie in the closed native-frame rectangle — the click handler
rejects (leaves the list unchanged) exactly the clicks whose computed native
coordinate is strictly outside the rectangle, appends boundary and interior
points, and undo, cancel and a successful save only remove vertices. -/
theorem editor_inFrame_invariant (img : ImgEl) (st : EditorState)
    (dx dy : ℚ) (createOk : Bool) (h : InFrame img st) :
    InFrame img (handleCanvasClick img dx dy st)
    ∧ InFrame img (undoPoint st)
    ∧ InFrame img (cancelDrawing st)
    ∧ InFrame img (saveSpace createOk st).1
    ∧ ((displayToNat dx dy img).1 < 0 ∨ (displayToNat dx dy img).2 < 0
        ∨ (displayToNat dx dy img).1 > img.naturalWidth
        ∨ (displayToNat dx dy img).2 > img.naturalHeight →
        handleCanvasClick img dx dy st = st)
    ∧ (0 ≤ (displayToNat dx dy img).1 →
        (displayToNat dx dy img).1 ≤ img.naturalWidth →
        0 ≤ (displayToNat dx dy img).2 →
        (displayToNat dx dy img).2 ≤ img.naturalHeight →
        (handleCanvasClick img dx dy st).drawing
          = st.drawing ++ [displayToNat dx dy img]) := by
  refine ⟨?_, ?_, ?_, ?_, ?_, ?_⟩
  · simp only [handleCanvasClick]
    split
    · exact h
    · rename_i hguard
      push_neg at hguard
      obtain ⟨h1, h2, h3, h4⟩ := hguard
      intro p hp
      rcases List.mem_append.mp hp with hp | hp
      · exact h p hp
      · rw [List.mem_singleton.mp hp]
        exact ⟨h1, h3, h2, h4⟩
  · intro p hp
    exact h p (List.dropLast_subset _ hp)
  · intro p hp
    simp [cancelDrawing] at hp
  · simp only [saveSpace]
    split_ifs
    · exact h
    · exact h
    · intro p hp
      simp at hp
    · exact h
  · intro hguard
    simp only [handleCanvasClick]
    rw [if_pos hguard]
  · intro h1 h2 h3 h4
    simp only [handleCanvasClick]
    rw [if_neg]
    push_neg
    exact ⟨h1, h3, h2, h4⟩

/-- Witness for C9: an empty draft satisfies the invariant and an in-frame
click keeps it. -/
theorem editor_inFrame_invariant_witness :
    InFrame ⟨800, 800, 1920, 1080⟩
      (handleCanvasClick ⟨800, 800, 1920, 1080⟩ 400 200 ⟨[], "A1"⟩) :=
  (editor_inFrame_invariant ⟨800, 800, 1920, 1080⟩ ⟨[], "A1"⟩ 400 200 true
    (by intro p hp; simp at hp)).1

/-- Claim C3 counterexample: in the traffic-camera LiveMonitor, a successful
stop on a session cached as `running` clears the cached status to `null`
(`setStatus(null)`), so the UI-visible status does not read `stopped`. -/
theorem liveMonitor_stop_clears_status :
    cachedStatus (runEvents (some ⟨"running", "t0"⟩) liveHandleStopEvents)
        = none
    ∧ cachedStatus (runEvents (some ⟨"running", "t0"⟩) liveHandleStopEvents)
        ≠ some "stopped" := by
  refine ⟨rfl, ?_⟩
  intro hq
  exact Option.noConfusion hq

/-- Claim C3 (amended): in every monitor view other than the traffic-camera
LiveMonitor — the parking-space, parking-gate, bus-passenger and bus-seat
views — a successful stop synchronously overwrites a cached snapshot with
status `stopped`, inside the handler, with no status fetch involved; the
traffic-camera LiveMonitor instead synchronously clears the cached status to
`null`, which reads as not-running rather than as `stopped`. -/
theorem handleStop_optimistic_stopped (prev : Option StatusSnapshot)
    (s : StatusSnapshot) (h : prev = some s) :
    runEvents prev (spaceHandleStopEvents prev)
        = some { s with status := "stopped" }
    ∧ runEvents prev (parkingHandleStopEvents prev)
        = some { s with status := "stopped" }
    ∧ runEvents prev (busHandleStopEvents prev)
        = some { s with status := "stopped" }
    ∧ runEvents prev (seatHandleStopEvents prev)
        = some { s with status := "stopped" }
    ∧ cachedStatus (runEvents prev (spaceHandleStopEvents prev))
        = some "stopped"
    ∧ UiEvent.apiFetchStatus ∉ spaceHandleStopEvents prev
    ∧ runEvents prev liveHandleStopEvents = none
    ∧ isRunningStatus (runEvents prev liveHandleStopEvents) = false := by
  subst h
  refine ⟨rfl, rfl, rfl, rfl, rfl, ?_, rfl, rfl⟩
  simp [spaceHandleStopEvents]

/-- Witness for the amended C3 at a `running` snapshot. -/
theorem handleStop_optimistic_stopped_witness :
    runEvents (some ⟨"running", "t0"⟩)
        (spaceHandleStopEvents (some ⟨"running", "t0"⟩))
      = some ⟨"stopped", "t0"⟩ :=
  (handleStop_optimistic_stopped (some ⟨"running", "t0"⟩) ⟨"running", "t0"⟩
    rfl).1

/-- Claim C7 counterexample: the start handlers never write a `starting`
status before their status fetch — at the concrete session below no
`setStatus` carrying `starting` precedes `apiFetchStatus` in either the
parking-space view or the LiveMonitor, refuting the claimed optimistic
`starting` update. -/
theorem handleStart_no_optimistic_starting :
    setsStartingBeforeFetch (spaceHandleStartEvents ⟨"idle", "t1"⟩) = false
    ∧ setsStartingBeforeFetch (liveHandleStartEvents ⟨"idle", "t1"⟩) = false := by
  exact ⟨rfl, rfl⟩

/-- Claim C7 (amended): `handleStart` issues the start command, then
immediately issues a status fetch, and only then stores the fetch result in
the cache; it performs no optimistic `starting` write — no status is written
at all before the fetch — and the LiveMonitor start handler is identical. -/
theorem handleStart_fetch_before_set (c : Option StatusSnapshot)
    (fetched : StatusSnapshot) :
    spaceHandleStartEvents fetched
      = [.apiStartCmd, .apiFetchStatus, .setStatus (some fetched)]
    ∧ setsStartingBeforeFetch (spaceHandleStartEvents fetched) = false
    ∧ runEvents c (spaceHandleStartEvents fetched) = some fetched
    ∧ liveHandleStartEvents fetched = spaceHandleStartEvents fetched
    ∧ setsStartingBeforeFetch (liveHandleStartEvents fetched) = false := by
  exact ⟨rfl, rfl, rfl, rfl, rfl⟩

/-- Truncating after a cons of an already-truncated list equals truncating
the plain cons. -/
lemma take_cons_take {α : Type} (a : α) (xs : List α) (n : ℕ) :
    (a :: xs.take (n + 1)).take (n + 1) = (a :: xs).take (n + 1) := by
  simp only [List.take_succ_cons, List.take_take]
  rw [min_eq_left (Nat.le_succ n)]

/-- Closed form of the detection buffer fold, generalized over an initial
buffer given as a truncated reverse. -/
lemma runWs_closed_aux (A : ℤ) (msgs : List (Option WsDetection)) :
    ∀ l : List WsDetection,
      msgs.foldl (onWsMessage A) (l.reverse.take 10) =
        ((l ++ ((msgs.filterMap id).filter (wsMatch A))).reverse).take 10 := by
  induction msgs with
  | nil => intro l; simp
  | cons m ms ih =>
    intro l
    cases m with
    | none =>
      simpa [onWsMessage, List.filterMap_cons] using ih l
    | some d =>
      by_cases hm : wsMatch A d
      · have step : onWsMessage A (l.reverse.take 10) (some d)
            = ((l ++ [d]).reverse).take 10 := by
          simp only [onWsMessage, if_pos hm]
          rw [show (l ++ [d]).reverse = d :: l.reverse by simp]
          exact take_cons_take d l.reverse 9
        simp only [List.foldl_cons, step]
        rw [ih (l ++ [d])]
        simp [hm, List.filterMap_cons, List.append_assoc]
      · simp only [List.foldl_cons, onWsMessage, if_neg hm]
        rw [ih l]
        simp [hm, List.filterMap_cons]

/-- Claim C6: from an empty buffer, any interleaving of raw WebSocket
messages leaves the consumer of camera `A` holding exactly the newest at
most 10 parsed events whose `camera_id` is `A` and whose type discriminator
is `live_detection`, newest first (the closed form truncates the reversed
arrival order, so an 11th matching event evicts the oldest); malformed
payloads leave any buffer unchanged. -/
theorem wsBuffer_bounded_filtered_newest_first (A : ℤ)
    (msgs : List (Option WsDetection)) (buf : List WsDetection) :
    runWsMessages A msgs
      = (((msgs.filterMap id).filter (wsMatch A)).reverse).take 10
    ∧ (runWsMessages A msgs).length ≤ 10
    ∧ (∀ d ∈ runWsMessages A msgs,
        d.camera_id = A ∧ d.type = "live_detection")
    ∧ onWsMessage A buf none = buf := by
  have hclosed : runWsMessages A msgs
      = (((msgs.filterMap id).filter (wsMatch A)).reverse).take 10 := by
    simpa [runWsMessages] using runWs_closed_aux A msgs []
  refine ⟨hclosed, ?_, ?_, rfl⟩
  · rw [hclosed]
    exact List.length_take_le _ _
  · intro d hd
    rw [hclosed] at hd
    have hd2 : d ∈ ((msgs.filterMap id).filter (wsMatch A)).reverse :=
      List.mem_of_mem_take hd
    rw [List.mem_reverse] at hd2
    have hmatch := List.of_mem_filter hd2
    simpa [wsMatch] using hmatch

/-- Witness for C6: over an interleaving of a matching event, a malformed
payload and an event of another camera, the retained event is confirmed to
carry camera 7 and the `live_detection` discriminator. -/
theorem wsBuffer_bounded_filtered_newest_first_witness :
    (⟨"live_detection", 7, "t2"⟩ : WsDetection).camera_id = 7
    ∧ (⟨"live_detection", 7, "t2"⟩ : WsDetection).type = "live_detection" :=
  (wsBuffer_bounded_filtered_newest_first 7
      [some ⟨"live_detection", 7, "t2"⟩, none,
        some ⟨"live_detection", 9, "t3"⟩] []).2.2.1
    ⟨"live_detection", 7, "t2"⟩ (by decide)

end RoadSight
